import Mathlib

set_option linter.unusedVariables false

/-!
Verification of the HoVer BM25 retrieval project (`hover_project.py`).

Python strings are modelled as `List Char` (`PyStr`): with a single-character
separator, `List.intercalate [c]` is Python's `sep.join`, and `List.splitOn c`
is Python's `str.split(sep)` (both return `[""]`-analogues on the empty
string, matching CPython). Python floats that only ever hold small exact
ratios (BM25 parameters, recall values, relevance scores carried opaquely)
are modelled as rationals. Fallible Python code (`KeyError`,
`ZeroDivisionError`, Elasticsearch request errors) is modelled with `Except`.
-/

namespace HoverProject

/-- A Python `str`, as a list of characters. -/
abbrev PyStr := List Char

/-- A JSON-ish Python value, as far as `generate_docs` inspects one:
a string, a list of values, or anything else (`isinstance` checks fail). -/
inductive PyVal where
  | str (s : PyStr)
  | list (items : List PyVal)
  | other

/-- `isinstance(s, str)` as a projection: the string when the value is one. -/
def pyStrOf : PyVal → Option PyStr
  | .str s => some s
  | _ => none

/-- Whether a value is a plain string or a (one-level) nested list. -/
def isStrOrList : PyVal → Bool
  | .str _ => true
  | .list _ => true
  | .other => false

/-- The sentence-flattening loop of `generate_docs` (hover_project.py,
`index_wikipedia`): a nested list contributes its string members, a plain
string contributes itself, anything else is skipped. -/
def flattenText : List PyVal → List PyStr
  | [] => []
  | .list items :: rest => items.filterMap pyStrOf ++ flattenText rest
  | .str s :: rest => s :: flattenText rest
  | .other :: rest => flattenText rest

/-- A raw document parsed from the wiki dump: a JSON object whose keys may
each be absent. `text` holds the raw JSON array when present. -/
structure RawDocument where
  id : Option PyStr
  url : Option PyStr
  title : Option PyStr
  text : Option (List PyVal)

/-- The `_id` plus `_source` fields of the bulk-indexing action emitted by
`generate_docs`. -/
structure IndexedDocument where
  id : PyStr
  title : PyStr
  text : PyStr
  sentences : PyStr
  url : PyStr
deriving DecidableEq

/-- Errors surfaced by the document normalisation: `doc['title']` on a
document without a title raises `KeyError`. -/
inductive DocError where
  | missingTitle
deriving DecidableEq

/-- The body of `generate_docs` for one parsed document (hover_project.py,
`index_wikipedia`): `text_data = doc.get('text', [])`, flatten, join the
sentences with a space into `full_text` and with a newline into
`sentences_text`, and emit the action with `_id = doc.get('id', doc['title'])`
and `url = doc.get('url', '')`. The subscript `doc['title']` is unguarded, so
a missing title is an error; note Python evaluates `doc.get('id', doc['title'])`
by first evaluating the default, so the title is demanded in every case. -/
def generateDoc (doc : RawDocument) : Except DocError IndexedDocument :=
  match doc.title with
  | none => .error .missingTitle
  | some title =>
    let sentences := flattenText (doc.text.getD [])
    let full_text := List.intercalate [' '] sentences
    let sentences_text := List.intercalate ['\n'] sentences
    .ok { id := doc.id.getD title
        , title := title
        , text := full_text
        , sentences := sentences_text
        , url := doc.url.getD [] }

/-- Python `s.split(sep)` for a one-character separator. -/
def pySplit (sep : Char) (s : PyStr) : List PyStr := s.splitOn sep

/-! ## Elasticsearch index store (environment model for `create_index`) -/

/-- The BM25 similarity block of the settings dict. -/
structure BM25Params where
  k1 : ℚ
  b : ℚ
deriving DecidableEq

/-- The claim-relevant parts of the `index_settings` dict of
`WikipediaIndexer.create_index` (the analyzer block and the per-field
mappings carry no numeric content and are omitted). -/
structure IndexSettings where
  number_of_shards : Nat
  number_of_replicas : Nat
  bm25_similarity : BM25Params
deriving DecidableEq

/-- The literal `index_settings` of `create_index`. -/
def index_settings : IndexSettings :=
  { number_of_shards := 1
  , number_of_replicas := 0
  , bm25_similarity := { k1 := 1.2, b := 0.75 } }

/-- An Elasticsearch request error; creating an index that already exists
raises `resource_already_exists_exception`. -/
inductive ESError where
  | resource_already_exists
deriving DecidableEq

/-- The index store of an Elasticsearch node: the existing indices by name. -/
abbrev ESStore := List (PyStr × IndexSettings)

/-- `es.indices.exists(index=name)`. -/
def indicesExists (es : ESStore) (name : PyStr) : Bool :=
  es.any (fun p => p.1 == name)

/-- `es.indices.create(index=name, body=settings)`: an error when an index of
that name already exists, otherwise the store extended with the new index. -/
def indicesCreate (es : ESStore) (name : PyStr) (settings : IndexSettings) :
    Except ESError ESStore :=
  if indicesExists es name then .error .resource_already_exists
  else .ok (es ++ [(name, settings)])

/-- `self.index_name = 'hotpot_wiki'`. -/
def index_name : PyStr := ['h','o','t','p','o','t','_','w','i','k','i']

/-- `WikipediaIndexer.create_index` as a state transformer on the index
store. The `indices.exists` branch of the source only prints (the delete and
the raise in it are commented out), after which `indices.create` is called
unconditionally. -/
def create_index (es : ESStore) : Except ESError ESStore :=
  let _ := indicesExists es index_name
  indicesCreate es index_name index_settings

/-! ## BM25Retriever -/

/-- The `_source` of a search hit, as `retrieve` reads it: `title` and
`sentences` are always read with subscripts, `url` with `.get('url', '')`. -/
structure HitSource where
  title : PyStr
  sentences : PyStr
  url : Option PyStr
deriving DecidableEq

/-- One element of `response['hits']['hits']`: the stored source plus the
oracle-assigned id and relevance score (an opaque float, carried as ℚ). -/
structure Hit where
  id : PyStr
  score : ℚ
  source : HitSource
deriving DecidableEq

/-- One element of the list `BM25Retriever.retrieve` returns. -/
structure RetrievedDoc where
  doc_id : PyStr
  title : PyStr
  sentences : List PyStr
  score : ℚ
  url : PyStr
deriving DecidableEq

/-- The result-building loop of `BM25Retriever.retrieve`: append one dict per
hit, in response order. -/
def shapeHits : List Hit → List RetrievedDoc
  | [] => []
  | hit :: rest =>
      { doc_id := hit.id
      , title := hit.source.title
      , sentences := pySplit '\n' hit.source.sentences
      , score := hit.score
      , url := hit.source.url.getD [] } :: shapeHits rest

/-- `BM25Retriever.retrieve(claim, k)`. The Elasticsearch oracle is the
function `search`: given the claim text and the requested size `k` it yields
`response['hits']['hits']` in rank order; `retrieve` shapes those hits. -/
def retrieve (search : PyStr → Nat → List Hit) (claim : PyStr) (k : Nat) :
    List RetrievedDoc :=
  shapeHits (search claim k)

/-- One HoVer example as `batch_retrieve` reads it: `uid` and `claim` with
subscripts (assumed present), `label` and `supporting_facts` with `.get`.
A supporting fact is a `[title, sentence_id]` pair; only `fact[0]` is read. -/
structure ClaimExample where
  uid : PyStr
  claim : PyStr
  label : Option PyStr
  supporting_facts : Option (List (PyStr × Nat))

/-- The per-uid value stored by `batch_retrieve`. -/
structure ClaimResult where
  claim : PyStr
  retrieved_docs : List RetrievedDoc
  label : Option PyStr
  supporting_facts : List (PyStr × Nat)
deriving DecidableEq

/-- A Python dict with `PyStr` keys, as an insertion-ordered association
list with unique keys. -/
abbrev PyDict (β : Type) := List (PyStr × β)

/-- Python dict assignment `m[k] = v`: update in place when the key exists,
else append. -/
def dictSet {β : Type} : PyDict β → PyStr → β → PyDict β
  | [], k, v => [(k, v)]
  | (k0, v0) :: rest, k, v =>
      if k0 = k then (k0, v) :: rest else (k0, v0) :: dictSet rest k v

/-- Python dict lookup `m.get(k)`. -/
def dictGet? {β : Type} : PyDict β → PyStr → Option β
  | [], _ => none
  | (k0, v0) :: rest, k => if k0 = k then some v0 else dictGet? rest k

/-- The dict entry `batch_retrieve` builds for one example. -/
def mkClaimResult (search : PyStr → Nat → List Hit) (k : Nat)
    (ex : ClaimExample) : ClaimResult :=
  { claim := ex.claim
  , retrieved_docs := retrieve search ex.claim k
  , label := ex.label
  , supporting_facts := ex.supporting_facts.getD [] }

/-- The loop of `batch_retrieve`, instrumented with the trace of claims
passed to `retrieve`, in call order. -/
def batchLoop (search : PyStr → Nat → List Hit) (k : Nat) :
    List ClaimExample → PyDict ClaimResult → List PyStr →
    PyDict ClaimResult × List PyStr
  | [], results, trace => (results, trace)
  | ex :: rest, results, trace =>
      batchLoop search k rest
        (dictSet results ex.uid (mkClaimResult search k ex))
        (trace ++ [ex.claim])

/-- What `batch_retrieve` produces: the returned mapping, the trace of
`retrieve` calls, and the mapping serialised to the output file (when one
was given, and only after the loop has finished). -/
structure BatchOutcome where
  results : PyDict ClaimResult
  retrieveTrace : List PyStr
  savedToFile : Option (PyDict ClaimResult)
deriving DecidableEq

/-- `BM25Retriever.batch_retrieve(dataset, k, output_file)`; `sink` is
whether an `output_file` was given. -/
def batch_retrieve (search : PyStr → Nat → List Hit)
    (dataset : List ClaimExample) (k : Nat) (sink : Bool) : BatchOutcome :=
  let lp := batchLoop search k dataset [] []
  { results := lp.1
  , retrieveTrace := lp.2
  , savedToFile := if sink then some lp.1 else none }

/-! ## evaluate_retrieval -/

/-- The set of titles of the retrieved documents
(`{doc['title'] for doc in data['retrieved_docs']}`). -/
def retrievedTitles (docs : List RetrievedDoc) : Finset PyStr :=
  (docs.map RetrievedDoc.title).toFinset

/-- The set of supporting-fact titles
(`{fact[0] for fact in supporting_facts}`). -/
def requiredTitles (facts : List (PyStr × Nat)) : Finset PyStr :=
  (facts.map Prod.fst).toFinset

/-- The per-claim recall of the `evaluate_retrieval` loop:
`len(found_titles) / len(required_titles) if required_titles else 0`. -/
def claimRecall (data : ClaimResult) : ℚ :=
  let required := requiredTitles data.supporting_facts
  let found := required ∩ retrievedTitles data.retrieved_docs
  if required = ∅ then 0 else (found.card : ℚ) / required.card

/-- The accumulators of the `evaluate_retrieval` loop:
`claims_with_all_docs` and `total_recall`. -/
def evalLoop : List (PyStr × ClaimResult) → Nat → ℚ → Nat × ℚ
  | [], claims_with_all_docs, total_recall => (claims_with_all_docs, total_recall)
  | (_, data) :: rest, claims_with_all_docs, total_recall =>
      let r := claimRecall data
      evalLoop rest
        (if r = 1 then claims_with_all_docs + 1 else claims_with_all_docs)
        (total_recall + r)

/-- `ZeroDivisionError` from the final divisions of `evaluate_retrieval`. -/
inductive EvalError where
  | zeroDivision
deriving DecidableEq

/-- The metrics dict `evaluate_retrieval` returns. -/
structure Metrics where
  total_claims : Nat
  claims_with_all_docs : Nat
  coverage : ℚ
  avg_recall : ℚ
deriving DecidableEq

/-- `BM25Retriever.evaluate_retrieval(results)`: the loop over the dict
entries followed by the divisions by `total_claims`, which raise
`ZeroDivisionError` on an empty results dict. -/
def evaluate_retrieval (results : PyDict ClaimResult) :
    Except EvalError Metrics :=
  let total_claims := results.length
  let lp := evalLoop results 0 0
  if total_claims = 0 then .error .zeroDivision
  else .ok
    { total_claims := total_claims
    , claims_with_all_docs := lp.1
    , coverage := (lp.1 : ℚ) / total_claims
    , avg_recall := lp.2 / total_claims }

instance {ε α : Type} [DecidableEq ε] [DecidableEq α] :
    DecidableEq (Except ε α) := fun x y =>
  match x, y with
  | .error e, .error f => decidable_of_iff (e = f) (by simp)
  | .ok a, .ok b => decidable_of_iff (a = b) (by simp)
  | .error _, .ok _ => isFalse (by simp)
  | .ok _, .error _ => isFalse (by simp)

/-- The flattened sentence sequence as the spec describes it: the top-level
strings and the string members of each nested sequence, concatenated in
original order, with non-string members dropped. -/
def flattenSpec (items : List PyVal) : List PyStr :=
  (items.map fun it =>
    match it with
    | .str s => [s]
    | .list xs => xs.filterMap pyStrOf
    | .other => []).flatten

/-! ## Concrete inputs used by counterexamples and witnesses -/

/-- A raw document whose `id` key is present but holds the empty string. -/
def docEmptyId : RawDocument :=
  { id := some [], url := none, title := some ['T'], text := some [] }

/-- A raw document whose `id` key holds a string different from the title. -/
def docWithId : RawDocument :=
  { id := some ['x'], url := none, title := some ['T'], text := some [] }

/-- The indexed form of `docWithId`. -/
def indexedWithId : IndexedDocument :=
  { id := ['x'], title := ['T'], text := [], sentences := [], url := [] }

/-- A raw document whose `text` key holds the empty list of sentences. -/
def docNoSentences : RawDocument :=
  { id := none, url := none, title := some ['T'], text := some [] }

/-- A raw document with two plain one-character sentences. -/
def docTwoSentences : RawDocument :=
  { id := none, url := none, title := some ['T']
  , text := some [.str ['a'], .str ['b']] }

/-- The indexed form of `docTwoSentences`. -/
def indexedTwoSentences : IndexedDocument :=
  { id := ['T'], title := ['T'], text := ['a', ' ', 'b']
  , sentences := ['a', '\n', 'b'], url := [] }

/-- A raw document whose `text` mixes a plain string, a nested list with a
non-string member, and another plain string. -/
def docMixed : RawDocument :=
  { id := none, url := none, title := some ['T']
  , text := some [.str ['a'], .list [.str ['b'], .other], .str ['c']] }

/-- The indexed form of `docMixed`. -/
def indexedMixed : IndexedDocument :=
  { id := ['T'], title := ['T'], text := ['a', ' ', 'b', ' ', 'c']
  , sentences := ['a', '\n', 'b', '\n', 'c'], url := [] }

/-- A raw document with no `text` key at all. -/
def docNoText : RawDocument :=
  { id := none, url := none, title := some ['T'], text := none }

/-- A retrieved document whose only populated field is its title. -/
def titledDoc (t : PyStr) : RetrievedDoc :=
  { doc_id := t, title := t, sentences := [], score := 0, url := [] }

/-- Supporting facts on titles A and B, retrieved titles A and C. -/
def resultAB : ClaimResult :=
  { claim := [], retrieved_docs := [titledDoc ['A'], titledDoc ['C']]
  , label := none, supporting_facts := [(['A'], 0), (['B'], 1)] }

/-- No supporting facts at all. -/
def resultNoFacts : ClaimResult :=
  { claim := [], retrieved_docs := [titledDoc ['A']]
  , label := none, supporting_facts := [] }

/-- One supporting fact, found among the retrieved titles: recall 1. -/
def resultFound : ClaimResult :=
  { claim := [], retrieved_docs := [titledDoc ['A']]
  , label := none, supporting_facts := [(['A'], 0)] }

/-- One supporting fact, nothing retrieved: recall 0. -/
def resultMissed : ClaimResult :=
  { claim := [], retrieved_docs := []
  , label := none, supporting_facts := [(['B'], 0)] }

/-- Three claims with per-claim recalls 1, 1 and 0. -/
def resultsThree : PyDict ClaimResult :=
  [(['u', '1'], resultFound), (['u', '2'], resultFound), (['u', '3'], resultMissed)]

/-! ## Helper lemmas -/

theorem flattenText_eq_flattenSpec (items : List PyVal) :
    flattenText items = flattenSpec items := by
  induction items with
  | nil => rfl
  | cons it rest ih =>
    cases it <;> simp [flattenText, flattenSpec, ih]

theorem flattenText_map_str (xs : List PyStr) :
    flattenText (xs.map PyVal.str) = xs := by
  induction xs with
  | nil => rfl
  | cons s rest ih => simp [flattenText, ih]

theorem generateDoc_of_title (doc : RawDocument) (t : PyStr)
    (ht : doc.title = some t) :
    generateDoc doc = Except.ok
      { id := doc.id.getD t
      , title := t
      , text := List.intercalate [' '] (flattenText (doc.text.getD []))
      , sentences := List.intercalate ['\n'] (flattenText (doc.text.getD []))
      , url := doc.url.getD [] } := by
  unfold generateDoc
  rw [ht]

theorem generateDoc_ok_elim (doc : RawDocument) (t : PyStr) (d : IndexedDocument)
    (ht : doc.title = some t) (hd : generateDoc doc = Except.ok d) :
    d = { id := doc.id.getD t
        , title := t
        , text := List.intercalate [' '] (flattenText (doc.text.getD []))
        , sentences := List.intercalate ['\n'] (flattenText (doc.text.getD []))
        , url := doc.url.getD [] } :=
  (Except.ok.inj ((generateDoc_of_title doc t ht).symm.trans hd)).symm

/-! ## Claims about indexing (C1 - C4, C10) -/

/-- C1: `create_index` is not idempotent as claimed: on a store that already
holds the `hotpot_wiki` index the unconditional `indices.create` call raises
`resource_already_exists_exception` instead of proceeding quietly; on a
fresh store it does create the single-shard, zero-replica index whose BM25
ranking profile has k1 = 1.2 and b = 0.75. -/
theorem create_index_not_idempotent :
    create_index [(index_name, index_settings)]
        = Except.error ESError.resource_already_exists
    ∧ create_index [] = Except.ok [(index_name, index_settings)]
    ∧ index_settings
        = { number_of_shards := 1, number_of_replicas := 0
          , bm25_similarity := { k1 := 1.2, b := 0.75 } } :=
  ⟨by decide, rfl, rfl⟩

/-- C2 counterexample: for a raw document whose `id` key is present but
empty (title `"T"`), the indexed id is the empty string, not the title, so
the claimed fallback on a present-but-empty id fails. -/
theorem empty_id_used_verbatim :
    (generateDoc docEmptyId).toOption.map IndexedDocument.id = some []
    ∧ ([] : PyStr) ≠ ['T'] := by
  exact ⟨by decide, by decide⟩

/-- C2 (amended): for every raw document with a title, the indexed id is the
raw `id` whenever the key is present — even when it is empty — and the
title exactly when the key is absent (`doc.get('id', doc['title'])`). -/
theorem indexed_id_fallback (doc : RawDocument) (t : PyStr) (d : IndexedDocument)
    (ht : doc.title = some t) (hd : generateDoc doc = Except.ok d) :
    d.id = doc.id.getD t := by
  rw [generateDoc_ok_elim doc t d ht hd]

/-- C2 witness: the amended fallback at a concrete document whose id
differs from its title. -/
theorem indexed_id_fallback_witness :
    indexedWithId.id = docWithId.id.getD ['T'] :=
  indexed_id_fallback docWithId ['T'] indexedWithId rfl (by decide)

/-- C3 counterexample: for a raw document whose `text` is the empty (hence
newline-free) sequence of sentences, `sentences_blob` is the empty string
and splitting it on newline yields `[""]`, not the original empty
sequence. -/
theorem roundtrip_fails_on_empty_text :
    (generateDoc docNoSentences).toOption.map (fun d => pySplit '\n' d.sentences)
        = some [[]]
    ∧ [([] : PyStr)] ≠ ([] : List PyStr) := by
  exact ⟨by decide, by decide⟩

/-- C3 (amended): for every raw document whose `text` is a nonempty flat
sequence of strings none of which contains a newline, splitting the
normalized `sentences_blob` on newline yields exactly the original
sequence. -/
theorem sentences_blob_roundtrip (doc : RawDocument) (t : PyStr)
    (xs : List PyStr) (d : IndexedDocument)
    (ht : doc.title = some t)
    (htext : doc.text = some (xs.map PyVal.str))
    (hnl : ∀ s ∈ xs, '\n' ∉ s)
    (hne : xs ≠ [])
    (hd : generateDoc doc = Except.ok d) :
    pySplit '\n' d.sentences = xs := by
  rw [generateDoc_ok_elim doc t d ht hd]
  show (List.intercalate ['\n'] (flattenText (doc.text.getD []))).splitOn '\n' = xs
  rw [htext, Option.getD_some, flattenText_map_str]
  exact List.splitOn_intercalate xs '\n' hnl hne

/-- C3 witness: the round-trip at a concrete two-sentence document. -/
theorem sentences_blob_roundtrip_witness :
    pySplit '\n' indexedTwoSentences.sentences = [['a'], ['b']] :=
  sentences_blob_roundtrip docTwoSentences ['T'] [['a'], ['b']]
    indexedTwoSentences rfl rfl (by decide) (by decide) (by decide)

/-- C4: for every raw document whose `text` mixes plain strings and
one-level nested sequences, the normalized sentence sequence is the ordered
concatenation of the top-level strings and the string members of each
nested sequence (non-strings dropped), `full_text` joins those sentences
with a single space, and `sentences_blob` joins them with a newline. -/
theorem flattening_property (doc : RawDocument) (t : PyStr)
    (items : List PyVal) (d : IndexedDocument)
    (ht : doc.title = some t)
    (htext : doc.text = some items)
    (hmix : items.all isStrOrList = true)
    (hd : generateDoc doc = Except.ok d) :
    flattenText items = flattenSpec items
    ∧ d.text = List.intercalate [' '] (flattenSpec items)
    ∧ d.sentences = List.intercalate ['\n'] (flattenSpec items) := by
  rw [generateDoc_ok_elim doc t d ht hd]
  rw [htext, Option.getD_some, flattenText_eq_flattenSpec]
  exact ⟨rfl, rfl, rfl⟩

/-- C4 witness: the flattening at a concrete document mixing plain strings
with a nested list holding a non-string member. -/
theorem flattening_property_witness :
    flattenText [.str ['a'], .list [.str ['b'], .other], .str ['c']]
        = flattenSpec [.str ['a'], .list [.str ['b'], .other], .str ['c']]
    ∧ indexedMixed.text = List.intercalate [' ']
        (flattenSpec [.str ['a'], .list [.str ['b'], .other], .str ['c']])
    ∧ indexedMixed.sentences = List.intercalate ['\n']
        (flattenSpec [.str ['a'], .list [.str ['b'], .other], .str ['c']]) :=
  flattening_property docMixed ['T']
    [.str ['a'], .list [.str ['b'], .other], .str ['c']]
    indexedMixed rfl rfl (by decide) (by decide)

/-- C10: a raw document without a `text` key, or with an empty `text`, still
normalizes (to empty `full_text` and `sentences_blob`), while a raw
document without a `title` key makes normalization fail with a
`KeyError`. -/
theorem missing_text_tolerated_missing_title_fatal (doc : RawDocument) :
    ((doc.text = none ∨ doc.text = some []) →
      ∀ t, doc.title = some t →
        generateDoc doc = Except.ok
          { id := doc.id.getD t, title := t, text := [], sentences := []
          , url := doc.url.getD [] })
    ∧ (doc.title = none → generateDoc doc = Except.error DocError.missingTitle) := by
  constructor
  · intro htext t ht
    rw [generateDoc_of_title doc t ht]
    rcases htext with h | h <;> rw [h] <;> rfl
  · intro ht
    unfold generateDoc
    rw [ht]

/-- C10 witness: a concrete document with a title and no `text` key
normalizes to empty text fields. -/
theorem missing_text_witness :
    generateDoc docNoText = Except.ok
      { id := ['T'], title := ['T'], text := [], sentences := [], url := [] } :=
  (missing_text_tolerated_missing_title_fatal docNoText).1 (Or.inl rfl) ['T'] rfl

/-! ## Helper lemmas for the retrieval side -/

theorem shapeHits_eq_map (hits : List Hit) :
    shapeHits hits = hits.map (fun hit =>
      { doc_id := hit.id
      , title := hit.source.title
      , sentences := pySplit '\n' hit.source.sentences
      , score := hit.score
      , url := hit.source.url.getD [] }) := by
  induction hits with
  | nil => rfl
  | cons hit rest ih => simp [shapeHits, ih]

theorem option_map_or {α β : Type} (f : α → β) (a b : Option α) :
    (a.or b).map f = (a.map f).or (b.map f) := by
  cases a <;> rfl

theorem option_or_assoc {α : Type} (a b c : Option α) :
    (a.or b).or c = a.or (b.or c) := by
  cases a <;> rfl

theorem option_or_none {α : Type} (a : Option α) : a.or none = a := by
  cases a <;> rfl

theorem find?_append_or {α : Type} (p : α → Bool) (l1 l2 : List α) :
    (l1 ++ l2).find? p = (l1.find? p).or (l2.find? p) := by
  induction l1 with
  | nil => rfl
  | cons a rest ih =>
    by_cases h : p a
    · simp [List.find?_cons, h]
    · simp [List.find?_cons, h, ih]

theorem dictGet?_dictSet_self {β : Type} (m : PyDict β) (k : PyStr) (v : β) :
    dictGet? (dictSet m k v) k = some v := by
  induction m with
  | nil => simp [dictSet, dictGet?]
  | cons p rest ih =>
    obtain ⟨k0, v0⟩ := p
    by_cases h : k0 = k
    · subst h; simp [dictSet, dictGet?]
    · simp [dictSet, dictGet?, h, ih]

theorem dictGet?_dictSet_ne {β : Type} (m : PyDict β) (k k2 : PyStr) (v : β)
    (h : k ≠ k2) : dictGet? (dictSet m k v) k2 = dictGet? m k2 := by
  induction m with
  | nil => simp [dictSet, dictGet?, h]
  | cons p rest ih =>
    obtain ⟨k0, v0⟩ := p
    by_cases h0 : k0 = k
    · subst h0; simp [dictSet, dictGet?, h, ih]
    · simp [dictSet, dictGet?, h0, ih]

theorem batchLoop_trace (search : PyStr → Nat → List Hit) (k : Nat)
    (ds : List ClaimExample) (m : PyDict ClaimResult) (tr : List PyStr) :
    (batchLoop search k ds m tr).2 = tr ++ ds.map ClaimExample.claim := by
  induction ds generalizing m tr with
  | nil => simp [batchLoop]
  | cons ex rest ih => simp [batchLoop, ih]

theorem batchLoop_lookup (search : PyStr → Nat → List Hit) (k : Nat)
    (ds : List ClaimExample) (m : PyDict ClaimResult) (tr : List PyStr)
    (uid : PyStr) :
    dictGet? (batchLoop search k ds m tr).1 uid
      = ((ds.reverse.find? (fun ex => ex.uid == uid)).map
          (mkClaimResult search k)).or (dictGet? m uid) := by
  induction ds generalizing m tr with
  | nil => rfl
  | cons ex rest ih =>
    have step :
        ((([ex].find? (fun e => e.uid == uid)).map
            (mkClaimResult search k)).or (dictGet? m uid))
          = dictGet? (dictSet m ex.uid (mkClaimResult search k ex)) uid := by
      by_cases h : ex.uid = uid
      · subst h
        simp [List.find?_cons, Option.or, dictGet?_dictSet_self]
      · have hb : (ex.uid == uid) = false := by simp [h]
        simp [List.find?_cons, hb, Option.or, dictGet?_dictSet_ne m ex.uid uid _ h]
    calc dictGet? (batchLoop search k (ex :: rest) m tr).1 uid
        = dictGet? (batchLoop search k rest
            (dictSet m ex.uid (mkClaimResult search k ex)) (tr ++ [ex.claim])).1 uid := rfl
      _ = ((rest.reverse.find? (fun e => e.uid == uid)).map
            (mkClaimResult search k)).or
          (dictGet? (dictSet m ex.uid (mkClaimResult search k ex)) uid) := ih _ _
      _ = ((rest.reverse.find? (fun e => e.uid == uid)).map
            (mkClaimResult search k)).or
          ((([ex].find? (fun e => e.uid == uid)).map
            (mkClaimResult search k)).or (dictGet? m uid)) := by rw [step]
      _ = (((rest.reverse.find? (fun e => e.uid == uid)).or
            ([ex].find? (fun e => e.uid == uid))).map
            (mkClaimResult search k)).or (dictGet? m uid) := by
          rw [option_map_or, option_or_assoc]
      _ = (((ex :: rest).reverse.find? (fun e => e.uid == uid)).map
            (mkClaimResult search k)).or (dictGet? m uid) := by
          rw [List.reverse_cons, find?_append_or]

theorem evalLoop_fst (l : List (PyStr × ClaimResult)) (c : Nat) (t : ℚ) :
    (evalLoop l c t).1 = c + l.countP (fun p => decide (claimRecall p.2 = 1)) := by
  induction l generalizing c t with
  | nil => simp [evalLoop]
  | cons p rest ih =>
    obtain ⟨u, data⟩ := p
    simp only [evalLoop, List.countP_cons]
    rw [ih]
    by_cases h : claimRecall data = 1
    · simp [h]
      omega
    · simp [h]

theorem evalLoop_snd (l : List (PyStr × ClaimResult)) (c : Nat) (t : ℚ) :
    (evalLoop l c t).2 = t + (l.map (fun p => claimRecall p.2)).sum := by
  induction l generalizing c t with
  | nil => simp [evalLoop]
  | cons p rest ih =>
    obtain ⟨u, data⟩ := p
    simp only [evalLoop, List.map_cons, List.sum_cons]
    rw [ih]
    ring

/-! ## Claims about retrieval and evaluation (C5 - C9) -/

/-- C5: the per-claim recall is the number of distinct supporting-fact
titles that appear among the retrieved documents' titles divided by the
number of distinct supporting-fact titles, and 0 when there are no
supporting-fact titles; in particular required {A, B} against retrieved
{A, C} gives 1/2, and no facts give 0. -/
theorem per_claim_recall (data : ClaimResult) :
    claimRecall data =
      (if requiredTitles data.supporting_facts = ∅ then 0
       else (((requiredTitles data.supporting_facts).filter
               (fun t => t ∈ data.retrieved_docs.map RetrievedDoc.title)).card : ℚ)
            / ((requiredTitles data.supporting_facts).card : ℚ))
    ∧ claimRecall resultAB = 1 / 2
    ∧ claimRecall resultNoFacts = 0 := by
  refine ⟨?_, by rfl, by rfl⟩
  have hfilter : (requiredTitles data.supporting_facts).filter
      (fun t => t ∈ data.retrieved_docs.map RetrievedDoc.title)
      = requiredTitles data.supporting_facts ∩ retrievedTitles data.retrieved_docs := by
    rw [← Finset.filter_mem_eq_inter]
    exact Finset.filter_congr (fun x _ => by simp [retrievedTitles])
  simp only [claimRecall, hfilter]

/-- C6: on a nonempty results dict, `evaluate_retrieval` returns the number
of claims, the count of claims with recall exactly 1, their quotient as the
coverage, and the arithmetic mean of the per-claim recalls. -/
theorem aggregate_metrics (results : PyDict ClaimResult) (h : results ≠ []) :
    evaluate_retrieval results = Except.ok
      { total_claims := results.length
      , claims_with_all_docs := results.countP (fun p => decide (claimRecall p.2 = 1))
      , coverage := (results.countP (fun p => decide (claimRecall p.2 = 1)) : ℚ)
          / (results.length : ℚ)
      , avg_recall := (results.map (fun p => claimRecall p.2)).sum
          / (results.length : ℚ) } := by
  simp only [evaluate_retrieval, evalLoop_fst, evalLoop_snd]
  rw [if_neg (by simpa using h)]
  simp

/-- C6 witness: three claims with per-claim recalls 1, 1, 0 give coverage
2/3 and average recall 2/3. -/
theorem aggregate_metrics_witness :
    resultsThree ≠ [] ∧ evaluate_retrieval resultsThree = Except.ok
      { total_claims := 3, claims_with_all_docs := 2
      , coverage := 2 / 3, avg_recall := 2 / 3 } := by
  refine ⟨by decide, ?_⟩
  rw [aggregate_metrics resultsThree (by decide)]
  norm_num [resultsThree, resultFound, resultMissed, titledDoc, claimRecall,
    requiredTitles, retrievedTitles, List.countP_cons, List.countP_nil]

/-- C7: on the empty results dict, `evaluate_retrieval` raises
`ZeroDivisionError` instead of returning NaN or zero metrics. -/
theorem evaluate_empty_raises :
    evaluate_retrieval [] = Except.error EvalError.zeroDivision := rfl

/-- C8: `retrieve` returns one document per oracle hit, in oracle rank
order, carrying the hit id as doc_id, the stored title, the stored
`sentences_blob` split on newline, the oracle score unmodified, and the
stored url (empty when absent). -/
theorem retrieve_shapes_in_order (search : PyStr → Nat → List Hit)
    (claim : PyStr) (k : Nat) :
    (retrieve search claim k).length = (search claim k).length
    ∧ ∀ i : Nat, (retrieve search claim k)[i]?
        = ((search claim k)[i]?).map (fun hit =>
            { doc_id := hit.id
            , title := hit.source.title
            , sentences := pySplit '\n' hit.source.sentences
            , score := hit.score
            , url := hit.source.url.getD [] }) := by
  constructor
  · rw [retrieve, shapeHits_eq_map, List.length_map]
  · intro i
    rw [retrieve, shapeHits_eq_map, List.getElem?_map]

/-- C9: `batch_retrieve` calls `retrieve` once per example in input order,
maps each uid to a result holding the claim, the retrieved documents, the
label (None when absent) and the supporting facts (empty when absent), lets
a later example with the same uid overwrite an earlier one, returns the
in-memory mapping whether or not a sink is given, and persists exactly the
final mapping when one is. -/
theorem batch_retrieve_spec (search : PyStr → Nat → List Hit)
    (dataset : List ClaimExample) (k : Nat) (sink : Bool) :
    (batch_retrieve search dataset k sink).retrieveTrace
        = dataset.map ClaimExample.claim
    ∧ (∀ uid, dictGet? (batch_retrieve search dataset k sink).results uid
        = (dataset.reverse.find? (fun ex => ex.uid == uid)).map
            (mkClaimResult search k))
    ∧ (∀ ex, mkClaimResult search k ex =
        { claim := ex.claim
        , retrieved_docs := retrieve search ex.claim k
        , label := ex.label
        , supporting_facts := ex.supporting_facts.getD [] })
    ∧ (batch_retrieve search dataset k sink).savedToFile
        = (if sink then some (batch_retrieve search dataset k sink).results
           else none) := by
  refine ⟨?_, ?_, fun ex => rfl, rfl⟩
  · show (batchLoop search k dataset [] []).2 = dataset.map ClaimExample.claim
    rw [batchLoop_trace]
    rfl
  · intro uid
    show dictGet? (batchLoop search k dataset [] []).1 uid = _
    rw [batchLoop_lookup]
    show Option.or _ (dictGet? [] uid) = _
    rw [show dictGet? ([] : PyDict ClaimResult) uid = none from rfl, option_or_none]

end HoverProject
